import Mathlib

/-!
Verification of the workload reconciliation and blue-green rollout core of a
multi-tenant application-hosting control plane, shallowly embedded from the
Python sources (app/k8s_ops.py, app/k8s_client.py, app/main.py,
app/models.py).

The cluster backend is modelled as explicit state (lists of namespaced
resources); every fallible Python function becomes a function returning an
explicit error value alongside the possibly-mutated state.  Python exceptions
map onto the PyErr type below; the common Python idiom of a falsy test on an
optional string is modelled by the pyStrOr and pyOptOr helpers.
-/

namespace Spec2Proof

/-- Python exception values that the embedded functions can raise. -/
inductive PyErr where
  | apiException (status : Nat)
  | keyError (key : String)
  | nameError (nm : String)
  | permissionError (msg : String)
  | httpError (status : Nat)
  | attributeError (msg : String)
deriving Repr, DecidableEq

deriving instance DecidableEq for Except

/-- True exactly when an Except value is a success, mirroring the Python
call returning normally rather than raising. -/
def exceptOk {ε α : Type} : Except ε α → Bool
  | .ok _ => true
  | .error _ => false

/-- Python `a or b` on strings: the empty string is falsy. -/
def pyStrOr (a b : String) : String :=
  if a = "" then b else a

/-- Python `a or b` where `a` is an optional string (None and the empty
string are falsy) and `b` a plain string. -/
def pyOptOr (a : Option String) (b : String) : String :=
  match a with
  | some s => if s = "" then b else s
  | none => b

/-- Python str.lower() for the ASCII role strings this code compares,
written structurally so that concrete instances evaluate. -/
def pyLower (s : String) : String :=
  String.mk (s.data.map Char.toLower)

/-- Python truthiness of an optional string. -/
def pyTruthy (a : Option String) : Bool :=
  match a with
  | some s => s ≠ ""
  | none => false

/-- Python `a or b` on two optional strings, as used by
verify_namespace_access for its return value. -/
def pyOptOrOpt (a b : Option String) : Option String :=
  if pyTruthy a then a else b

/-- A Kubernetes Deployment, reduced to the fields the reconciler and the
blue-green controller read and write: namespace, object name, the app and
role metadata labels, the replica count and the container image.
A missing role label is modelled as the empty string, mirroring
labels.get with an empty-string default in the Python code. -/
structure KDeployment where
  ns : String
  name : String
  app : String
  role : String
  replicas : Nat
  image : String
deriving Repr, DecidableEq

/-- A Kubernetes Service with a single port entry, reduced to the fields
upsert_service reads and writes.  nodePort is optional, as in the API. -/
structure KService where
  ns : String
  name : String
  svcType : String
  port : Nat
  nodePort : Option Nat
  targetPort : Nat
  portName : String
  protocol : String
  selector : List (String × String)
  labels : List (String × String)
deriving Repr, DecidableEq

/-- The cluster state visible to the embedded operations. -/
structure Cluster where
  deps : List KDeployment := []
  svcs : List KService := []
  ingresses : List (String × String) := []
  namespaces : List String := []
  serviceAccounts : List (String × String) := []
  roles : List (String × String) := []
  roleBindings : List (String × String) := []
deriving Repr, DecidableEq

def Cluster.empty : Cluster := {}

/-- AppSpec from app/models.py, restricted to the fields the reconciler and
the blue-green controller consume.  Pydantic validates name/namespace as
DNS labels, port in 1..65535 and replicas in 1..50; namespace defaults to
the DEFAULT_NAMESPACE environment value ("default" when unset). -/
structure AppSpec where
  name : String
  app_label : Option String := none
  service_name : Option String := none
  ns : String := "default"
  image : String
  tag : String
  port : Nat
  replicas : Nat := 1
deriving Repr, DecidableEq

/-- self.app_label or self.name -/
def AppSpec.effective_app_label (s : AppSpec) : String :=
  pyOptOr s.app_label s.name

/-- self.service_name or self.name -/
def AppSpec.effective_service_name (s : AppSpec) : String :=
  pyOptOr s.service_name s.name

/-- p = self.port or 8080; 8080 if p is privileged (< 1024) else p -/
def AppSpec.effective_port (s : AppSpec) : Nat :=
  let p := if s.port = 0 then 8080 else s.port
  if p < 1024 then 8080 else p

/-- image:tag when a tag is present, bare image otherwise (the Python code
guards on the truthiness of spec.tag). -/
def AppSpec.fullImage (s : AppSpec) : String :=
  if s.tag = "" then s.image else s.image ++ ":" ++ s.tag

/-- spec.replicas or 1 -/
def AppSpec.effectiveReplicas (s : AppSpec) : Nat :=
  if s.replicas = 0 then 1 else s.replicas

/-- CurrentContext from app/auth.py: the authenticated principal's role and
bound namespace, recomputed per request from signed claims. -/
structure CurrentContext where
  role : String
  k8s_namespace : Option String := none
deriving Repr, DecidableEq

/-- platform_labels from app/k8s_client.py merged with the app and role
labels passed by the callers in app/k8s_ops.py: the base managed-by pairs
followed by the extra pairs, in Python dict update order. -/
def platformLabels (app role : String) : List (String × String) :=
  [("managed-by", "cloud-devops-platform"),
   ("app.kubernetes.io/managed-by", "cloud-devops-platform"),
   ("app", app), ("role", role)]

-- ---------------------------------------------------------------------
-- Cluster primitives (the Kubernetes API calls the code issues)
-- ---------------------------------------------------------------------

/-- read_namespaced_deployment: find by namespace and object name. -/
def readDeployment (c : Cluster) (ns nm : String) : Option KDeployment :=
  c.deps.find? (fun d => d.ns == ns && d.name == nm)

/-- list_namespaced_deployment with label_selector app=<label>. -/
def listDeploymentsByApp (c : Cluster) (ns app : String) : List KDeployment :=
  c.deps.filter (fun d => d.ns == ns && d.app == app)

/-- patch_namespaced_deployment with a full typed body, as issued by
upsert_deployment and bg_prepare: overwrites the app/role labels, the
replica count and the pod image of the deployment with that name. -/
def patchDeploymentFull (c : Cluster) (ns nm : String) (body : KDeployment) :
    Cluster :=
  { c with deps := c.deps.map (fun d =>
      if d.ns == ns && d.name == nm then
        { d with app := body.app, role := body.role,
                 replicas := body.replicas, image := body.image }
      else d) }

/-- _patch_deploy_labels: patch only the role label (metadata and pod
template) of the deployment with the given name. -/
def patchDeployRole (c : Cluster) (ns nm role : String) : Cluster :=
  { c with deps := c.deps.map (fun d =>
      if d.ns == ns && d.name == nm then { d with role := role } else d) }

/-- The last list element satisfying the test, mirroring the Python for
loop that keeps overwriting a variable on every match. -/
def lastWith {α : Type} (p : α → Bool) (l : List α) : Option α :=
  l.foldl (fun acc d => if p d then some d else acc) none

/-- read_namespaced_service: find by namespace and object name. -/
def readService (c : Cluster) (ns nm : String) : Option KService :=
  c.svcs.find? (fun s => s.ns == ns && s.name == nm)

/-- Replace the service with the given name by the patched body. -/
def writeService (c : Cluster) (ns nm : String) (body : KService) : Cluster :=
  { c with svcs := c.svcs.map (fun s =>
      if s.ns == ns && s.name == nm then body else s) }

-- ---------------------------------------------------------------------
-- upsert_deployment (app/k8s_ops.py lines 29-100)
-- ---------------------------------------------------------------------

/-- The deployment body upsert_deployment builds from the spec: name equal
to the effective app label, labels app=<name> and role=active, replicas
spec.replicas or 1, image image:tag. -/
def deploymentBody (ns : String) (spec : AppSpec) : KDeployment :=
  { ns := ns
    name := spec.effective_app_label
    app := spec.effective_app_label
    role := "active"
    replicas := spec.effectiveReplicas
    image := spec.fullImage }

/-- upsert_deployment: resolve the namespace as spec.namespace or the
environment namespace, read the deployment by name, patch it with the full
body when found, create it when the read reports NotFound. -/
def upsert_deployment (envNs : String) (spec : AppSpec) (c : Cluster) :
    Cluster × KDeployment :=
  let ns := pyStrOr spec.ns envNs
  let body := deploymentBody ns spec
  match readDeployment c ns body.name with
  | some _ => (patchDeploymentFull c ns body.name body, body)
  | none => ({ c with deps := c.deps ++ [body] }, body)

-- ---------------------------------------------------------------------
-- bg_prepare (app/k8s_ops.py lines 428-508)
-- ---------------------------------------------------------------------

/-- The preview deployment body bg_prepare builds: name <app>-preview,
labels app=<app> and role=preview, same image/replica policy as
upsert_deployment. -/
def previewBody (ns : String) (spec : AppSpec) : KDeployment :=
  { ns := ns
    name := spec.effective_app_label ++ "-preview"
    app := spec.effective_app_label
    role := "preview"
    replicas := spec.effectiveReplicas
    image := spec.fullImage }

/-- bg_prepare: create or update the parallel <name>-preview deployment
with role=preview; the service is never touched. -/
def bg_prepare (envNs : String) (spec : AppSpec) (c : Cluster) :
    Cluster × KDeployment :=
  let ns := pyStrOr spec.ns envNs
  let body := previewBody ns spec
  match readDeployment c ns body.name with
  | some _ => (patchDeploymentFull c ns body.name body, body)
  | none => ({ c with deps := c.deps ++ [body] }, body)

-- ---------------------------------------------------------------------
-- bg_promote (app/k8s_ops.py lines 511-543)
-- ---------------------------------------------------------------------

/-- The value bg_promote returns on success. -/
structure PromoteResult where
  promoted : String
  demoted : Option String
deriving Repr, DecidableEq

/-- bg_promote: list the deployments carrying label app=<name> in the
resolved namespace; the loop keeps the last deployment labelled
role=preview and the last labelled role=active.  With no preview it
raises ApiException(404) before any mutation.  Otherwise it patches the
preview's role to active and, when a prior active exists, that one's role
to idle.  No replica scaling is performed.  When a prior active exists the
Python return statement then evaluates getattr(active, "metadata", ...)
followed by a dict-style .get on a typed V1ObjectMeta, which raises
AttributeError after both label patches have been applied. -/
def bg_promote (envNs nm nsArg : String) (c : Cluster) :
    Cluster × Except PyErr PromoteResult :=
  let ns := pyStrOr nsArg envNs
  let deps := listDeploymentsByApp c ns nm
  let preview := lastWith (fun d => d.role == "preview") deps
  let active := lastWith (fun d => d.role == "active") deps
  match preview with
  | none => (c, .error (.apiException 404))
  | some p =>
    let c1 := patchDeployRole c ns p.name "active"
    match active with
    | some a =>
      (patchDeployRole c1 ns a.name "idle",
       .error (.attributeError "V1ObjectMeta has no attribute get"))
    | none => (c1, .ok { promoted := p.name, demoted := none })

-- ---------------------------------------------------------------------
-- bg_rollback (app/k8s_ops.py lines 546-584)
-- ---------------------------------------------------------------------

/-- The value bg_rollback returns. -/
inductive RollbackResult where
  | swapped (a p : String)
  | promotedFromPreview (p : String)
  | note
deriving Repr, DecidableEq

/-- bg_rollback: with both an active and a preview, swap their role labels
(active patched to preview first, then preview to active); with only a
preview, promote it to active; otherwise, including when only idle
counterparts exist, report that no action was performed.  No replica
scaling is performed anywhere. -/
def bg_rollback (envNs nm nsArg : String) (c : Cluster) :
    Cluster × Except PyErr RollbackResult :=
  let ns := pyStrOr nsArg envNs
  let deps := listDeploymentsByApp c ns nm
  let preview := lastWith (fun d => d.role == "preview") deps
  let active := lastWith (fun d => d.role == "active") deps
  match active, preview with
  | some a, some p =>
    let c1 := patchDeployRole c ns a.name "preview"
    (patchDeployRole c1 ns p.name "active", .ok (.swapped a.name p.name))
  | none, some p =>
    (patchDeployRole c ns p.name "active", .ok (.promotedFromPreview p.name))
  | _, none => (c, .ok .note)

-- ---------------------------------------------------------------------
-- get_api_clients (app/k8s_client.py lines 31-43)
-- ---------------------------------------------------------------------

/-- The Kubernetes API client kinds the factory can hand out. -/
inductive ApiClientKind where
  | apps
  | core
  | custom
deriving Repr, DecidableEq

/-- get_api_clients: the dict of clients the factory returns.  It holds
exactly the keys apps, core and custom. -/
def get_api_clients : List (String × ApiClientKind) :=
  [("apps", .apps), ("core", .core), ("custom", .custom)]

/-- Python dict subscript: KeyError when the key is absent. -/
def dictGet {α : Type} (d : List (String × α)) (k : String) :
    Except PyErr α :=
  match d.find? (fun kv => kv.1 == k) with
  | some kv => .ok kv.2
  | none => .error (.keyError k)

-- ---------------------------------------------------------------------
-- create_ingress_for_app (app/k8s_ops.py lines 111-196)
-- ---------------------------------------------------------------------

/-- The body of create_ingress_for_app after the client dict has been
obtained, parameterised by that dict.  It first subscripts the dict with
"networking" and "core"; if both lookups succeed, the next executed
statement reads the local variable ctx, which is never assigned anywhere
in the function, so a NameError is raised.  Every later statement of the
function, including the Ingress delete/create calls, is unreachable. -/
def create_ingress_with_clients (clients : List (String × ApiClientKind))
    (appName ns : String) (c : Cluster) : Cluster × Except PyErr Unit :=
  match dictGet clients "networking" with
  | .error e => (c, .error e)
  | .ok _ =>
    match dictGet clients "core" with
    | .error e => (c, .error e)
    | .ok _ =>
      let _ := appName
      let _ := ns
      (c, .error (.nameError "ctx"))

/-- create_ingress_for_app: obtain the clients from get_api_clients and run
the body above. -/
def create_ingress_for_app (appName ns : String) (c : Cluster) :
    Cluster × Except PyErr Unit :=
  create_ingress_with_clients get_api_clients appName ns c

-- ---------------------------------------------------------------------
-- upsert_service (app/k8s_ops.py lines 202-284)
-- ---------------------------------------------------------------------

/-- The patched service body built when upsert_service finds an existing
service: the access mode is the existing type (defaulted to ClusterIP when
unset), the cluster port is the existing first port, the node port is kept
only for NodePort services, the target port becomes the spec's effective
port, the port name and protocol are set to http and TCP, and the labels
and selector are set to the platform labels with app=<label>, role=active.
-/
def servicePatchBody (s0 : KService) (appLabel : String) (targetPort : Nat) :
    KService :=
  let svcType := pyStrOr s0.svcType "ClusterIP"
  { s0 with
    svcType := svcType
    port := s0.port
    nodePort := if svcType = "NodePort" then s0.nodePort else none
    targetPort := targetPort
    portName := "http"
    protocol := "TCP"
    selector := [("app", appLabel), ("role", "active")]
    labels := platformLabels appLabel "active" }

/-- The fresh service body created when the read reports NotFound: type
ClusterIP, port and target port both the spec's effective port. -/
def serviceCreateBody (ns nm appLabel : String) (port : Nat) : KService :=
  { ns := ns
    name := nm
    svcType := "ClusterIP"
    port := port
    nodePort := none
    targetPort := port
    portName := "http"
    protocol := "TCP"
    selector := [("app", appLabel), ("role", "active")]
    labels := platformLabels appLabel "active" }

/-- upsert_service: resolve the namespace as the context's bound namespace,
else the spec's namespace, else "default"; reject platform_admin outside
"default" and every other role inside "default" with PermissionError;
then read the service by its effective name and either patch it with
servicePatchBody or create serviceCreateBody on NotFound.  Afterwards it
calls create_ingress_for_app inside a catch-all handler, so the
exception that call always raises is swallowed and the service result is
returned successfully, with no ingress ever created. -/
def upsert_service (spec : AppSpec) (ctx : CurrentContext) (c : Cluster) :
    Cluster × Except PyErr KService :=
  let role := ctx.role
  let ns := pyOptOr ctx.k8s_namespace (pyStrOr spec.ns "default")
  if role = "platform_admin" ∧ ns ≠ "default" then
    (c, .error (.permissionError "platform_admin outside default"))
  else if role ≠ "platform_admin" ∧ ns = "default" then
    (c, .error (.permissionError "tenant role inside default"))
  else
    let appLabel := spec.effective_app_label
    let svcName := spec.effective_service_name
    let port := spec.effective_port
    let (c1, resp) :=
      match readService c ns svcName with
      | some s0 =>
        let body := servicePatchBody s0 appLabel port
        (writeService c ns svcName body, body)
      | none =>
        let body := serviceCreateBody ns svcName appLabel port
        ({ c with svcs := c.svcs ++ [body] }, body)
    let (c2, _ingressErr) := create_ingress_for_app appLabel ns c1
    (c2, .ok resp)

-- ---------------------------------------------------------------------
-- Create-race control flow of the upsert and provisioning steps
-- ---------------------------------------------------------------------

/-- The exception skeleton shared by upsert_deployment, bg_prepare and
upsert_service: a try block running a read followed by a patch, with an
ApiException handler that runs the create call when the caught status is
404 and re-raises otherwise.  The create call executes inside the handler
with no conflict handling of its own, so any ApiException it raises,
including a 409 Conflict from a racing creator, propagates to the caller.
Outcomes of the backend calls are passed in as parameters. -/
def upsertRaceFlow {α : Type} (readPatchRes : Except Nat α)
    (createRes : Except Nat α) : Except Nat α :=
  match readPatchRes with
  | .ok v => .ok v
  | .error s => if s = 404 then createRes else .error s

/-- The read-then-create skeleton of the service-account, role and
role-binding steps of create_tenant_namespace: read; on 404 create (whose
failures propagate, including 409); on any other read error re-raise.
Returns whether the step created the resource. -/
def ensureStepFlow (readRes : Except Nat Unit) (createRes : Except Nat Unit) :
    Except Nat Bool :=
  match readRes with
  | .ok _ => .ok false
  | .error s =>
    if s = 404 then
      match createRes with
      | .ok _ => .ok true
      | .error s2 => .error s2
    else .error s

/-- The namespace step of create_tenant_namespace: read; on 404 create
inside a nested handler that swallows every create failure (the 409 test
in that handler guards a bare pass on both branches); any other read
status is also ignored.  The step never raises. -/
def ensureNamespaceFlow (readRes : Except Nat Unit)
    (createRes : Except Nat Unit) : Except Nat Bool :=
  match readRes with
  | .ok _ => .ok false
  | .error s =>
    if s = 404 then
      match createRes with
      | .ok _ => .ok true
      | .error _ => .ok false
    else .ok false

-- ---------------------------------------------------------------------
-- create_tenant_namespace (app/k8s_ops.py lines 621-724)
-- ---------------------------------------------------------------------

/-- The summary dict create_tenant_namespace would return. -/
structure TenantSummary where
  ns : String
  createdNamespace : Bool
  createdServiceAccount : Bool
  createdRole : Bool
  createdRoleBinding : Bool
deriving Repr, DecidableEq

/-- The namespace / service-account / role / role-binding ensure steps of
create_tenant_namespace against the cluster state, each read-then-create
and recording whether it created.  This code is only reachable after both
client-dict subscripts at the top of the function succeed. -/
def tenantProvisionSteps (ns : String) (c : Cluster) :
    Cluster × TenantSummary :=
  let (c1, mkNs) :=
    if c.namespaces.contains ns then (c, false)
    else ({ c with namespaces := c.namespaces ++ [ns] }, true)
  let (c2, mkSa) :=
    if c1.serviceAccounts.contains (ns, "tenant-app-sa") then (c1, false)
    else ({ c1 with serviceAccounts :=
            c1.serviceAccounts ++ [(ns, "tenant-app-sa")] }, true)
  let (c3, mkRole) :=
    if c2.roles.contains (ns, "tenant-app-role") then (c2, false)
    else ({ c2 with roles := c2.roles ++ [(ns, "tenant-app-role")] }, true)
  let (c4, mkRb) :=
    if c3.roleBindings.contains (ns, "tenant-app-binding") then (c3, false)
    else ({ c3 with roleBindings :=
            c3.roleBindings ++ [(ns, "tenant-app-binding")] }, true)
  (c4, { ns := ns, createdNamespace := mkNs, createdServiceAccount := mkSa,
         createdRole := mkRole, createdRoleBinding := mkRb })

/-- create_tenant_namespace: the function first subscripts the client dict
with "core" and then with "rbac".  get_api_clients returns no "rbac" key,
so the second subscript raises KeyError before any cluster read or create
is attempted; the provisioning steps below it are unreachable. -/
def create_tenant_namespace (ns : String) (c : Cluster) :
    Cluster × Except PyErr TenantSummary :=
  match dictGet get_api_clients "core" with
  | .error e => (c, .error e)
  | .ok _ =>
    match dictGet get_api_clients "rbac" with
    | .error e => (c, .error e)
    | .ok _ =>
      let (c4, summary) := tenantProvisionSteps ns c
      (c4, .ok summary)

-- ---------------------------------------------------------------------
-- verify_namespace_access (app/main.py lines 448-459)
-- ---------------------------------------------------------------------

/-- verify_namespace_access: principals whose lowercased role is admin or
platform_admin are treated as privileged.  A non-privileged principal
requesting a truthy namespace different from its bound one is rejected
with HTTP 403; otherwise the bound namespace (or the requested one as a
fallback) is returned.  A privileged principal gets the requested
namespace verbatim, falling back to the bound one. -/
def verify_namespace_access (ctx : CurrentContext)
    (requested : Option String) : Except PyErr (Option String) :=
  let userNs := ctx.k8s_namespace
  let userRole := pyLower ctx.role
  let isAdmin := userRole = "admin" ∨ userRole = "platform_admin"
  if ¬ isAdmin then
    if pyTruthy requested ∧ requested ≠ userNs then
      .error (.httpError 403)
    else
      .ok (pyOptOrOpt userNs requested)
  else
    .ok (pyOptOrOpt requested userNs)

-- ---------------------------------------------------------------------
-- Endpoint flows (app/main.py)
-- ---------------------------------------------------------------------

/-- The pair the deploy endpoint returns. -/
structure DeployResult where
  deployment : KDeployment
  service : KService
deriving Repr, DecidableEq

/-- deploy_app (app/main.py lines 169-212): a platform_admin deploys into
spec.namespace, falling back to the token namespace then "default"; any
other role, including the tenant default role admin, is forced onto the
token namespace (HTTP 400 when none is bound).  The guard is then invoked
on the already-forced namespace; upsert_deployment runs before
upsert_service, so a service-stage rejection leaves the deployment
mutation in place.  The endpoint's catch-all handler turns every raised
exception into HTTP 500. -/
def deploy_app (ctx : CurrentContext) (spec : AppSpec) (envNs : String)
    (c : Cluster) : Cluster × Except PyErr DeployResult :=
  let userRole := pyLower ctx.role
  let tokenNs := ctx.k8s_namespace
  let finalNs? : Except PyErr String :=
    if userRole = "platform_admin" then
      .ok (pyStrOr spec.ns (pyOptOr tokenNs "default"))
    else if pyTruthy tokenNs then
      .ok (pyOptOr tokenNs "default")
    else
      .error (.httpError 400)
  match finalNs? with
  | .error _ => (c, .error (.httpError 500))
  | .ok finalNs =>
    let spec' := { spec with ns := finalNs }
    match verify_namespace_access ctx (some finalNs) with
    | .error _ => (c, .error (.httpError 500))
    | .ok _ =>
      let (c1, dep) := upsert_deployment envNs spec' c
      match upsert_service spec' ctx c1 with
      | (c2, .ok svc) => (c2, .ok { deployment := dep, service := svc })
      | (c2, .error _) => (c2, .error (.httpError 500))

/-- bluegreen_prepare (app/main.py lines 264-288): the endpoint passes the
caller's spec straight to bg_prepare with no namespace check of any kind;
the authenticated context is used only for logging. -/
def bluegreen_prepare_ep (ctx : CurrentContext) (spec : AppSpec)
    (envNs : String) (c : Cluster) : Cluster × Except PyErr KDeployment :=
  let _ := ctx
  let (c1, dep) := bg_prepare envNs spec c
  (c1, .ok dep)

-- ---------------------------------------------------------------------
-- Blue-green operation sequences for the role invariant
-- ---------------------------------------------------------------------

/-- One operation of the blue-green lifecycle on a fixed (namespace,
application) pair; deploy and prepare may vary image, tag and replicas. -/
inductive BGOp where
  | deploy (image tag : String) (replicas : Nat)
  | prepare (image tag : String) (replicas : Nat)
  | promote
  | rollback
deriving Repr, DecidableEq

/-- The spec a deploy or prepare on the fixed pair submits. -/
def specFor (ns a image tag : String) (replicas : Nat) : AppSpec :=
  { name := a, ns := ns, image := image, tag := tag,
    port := 8080, replicas := replicas }

/-- Apply one blue-green operation to the cluster, keeping only the
resulting state (an operation that raises still leaves its mutations). -/
def applyBG (envNs ns a : String) (c : Cluster) : BGOp → Cluster
  | .deploy img tag r => (upsert_deployment envNs (specFor ns a img tag r) c).1
  | .prepare img tag r => (bg_prepare envNs (specFor ns a img tag r) c).1
  | .promote => (bg_promote envNs a ns c).1
  | .rollback => (bg_rollback envNs a ns c).1

/-- Run a sequence of blue-green operations. -/
def runBG (envNs ns a : String) (c : Cluster) : List BGOp → Cluster
  | [] => c
  | op :: ops => runBG envNs ns a (applyBG envNs ns a c op) ops

/-- The deployments of the pair carrying the given role, on a plain
deployment list. -/
def roleList (ns a role : String) (l : List KDeployment) : List KDeployment :=
  l.filter (fun d => d.ns == ns && d.app == a && d.role == role)

/-- The deployments of the pair currently carrying the given role. -/
def roleDeps (c : Cluster) (ns a role : String) : List KDeployment :=
  roleList ns a role c.deps

/-- The role invariant on a plain deployment list: at most one active and
at most one preview deployment for the pair. -/
@[reducible]
def InvListBG (ns a : String) (l : List KDeployment) : Prop :=
  (roleList ns a "active" l).length ≤ 1 ∧
  (roleList ns a "preview" l).length ≤ 1

/-- The role invariant of the claim: at most one active and at most one
preview deployment for the pair. -/
@[reducible]
def InvBG (ns a : String) (c : Cluster) : Prop :=
  InvListBG ns a c.deps

/-- Guard under which an operation keeps the invariant: a deploy must not
run while a deployment other than the base-named one holds role=active
(as after a promote), and a prepare must not run while a deployment other
than the preview-named one holds role=preview. -/
def goodBG (ns a : String) (c : Cluster) : BGOp → Bool
  | .deploy _ _ _ => (roleDeps c ns a "active").all (fun d => d.name == a)
  | .prepare _ _ _ =>
      (roleDeps c ns a "preview").all (fun d => d.name == a ++ "-preview")
  | .promote => true
  | .rollback => true

/-- Every step of the trace satisfies the guard in the state it runs in. -/
def goodTrace (envNs ns a : String) (c : Cluster) : List BGOp → Bool
  | [] => true
  | op :: ops =>
      goodBG ns a c op && goodTrace envNs ns a (applyBG envNs ns a c op) ops

/-- One deployment of the characterised state space: it lives in the
fixed namespace, carries the fixed app label and is named either the base
name or the preview name. -/
def okdBG (ns a : String) (d : KDeployment) : Prop :=
  d.ns = ns ∧ d.app = a ∧ (d.name = a ∨ d.name = a ++ "-preview")

/-- Structural characterisation of the deployment lists the blue-green
operations reach from the empty cluster: at most two deployments, all
admissible, with distinct names. -/
def charDeps (ns a : String) : List KDeployment → Prop
  | [] => True
  | [d] => okdBG ns a d
  | [d, e] => okdBG ns a d ∧ okdBG ns a e ∧ d.name ≠ e.name
  | _ => False

/-- The characterisation lifted to the cluster state. -/
def CharBG (ns a : String) (c : Cluster) : Prop :=
  charDeps ns a c.deps

-- =====================================================================
-- Theorems
-- =====================================================================

-- Shared helper lemmas -------------------------------------------------

theorem lastWith_eq_none_of_all {α : Type} (p : α → Bool) (l : List α)
    (h : ∀ x ∈ l, p x = false) : lastWith p l = none := by
  have aux : ∀ (l' : List α), (∀ x ∈ l', p x = false) →
      ∀ acc : Option α,
        l'.foldl (fun acc d => if p d then some d else acc) acc = acc := by
    intro l'
    induction l' with
    | nil => intro _ acc; rfl
    | cons y ys ih =>
      intro hall acc
      have hy : p y = false := hall y (by simp)
      simp only [List.foldl_cons, hy, if_false]
      exact ih (fun x hx => hall x (by simp [hx])) acc
  exact aux l h none

theorem patchRole_deps (c : Cluster) (ns n r : String) :
    (patchDeployRole c ns n r).deps = c.deps.map (fun d =>
      if d.ns = ns ∧ d.name = n then { d with role := r } else d) := by
  simp only [patchDeployRole]
  apply List.map_congr_left
  intro d _
  by_cases h1 : d.ns = ns
  · by_cases h2 : d.name = n
    · simp [h1, h2]
    · simp [h1, h2]
  · simp [h1]

theorem patchRole_patchRole_deps (c : Cluster) (ns n1 n2 r1 r2 : String)
    (hne : n1 ≠ n2) :
    (patchDeployRole (patchDeployRole c ns n1 r1) ns n2 r2).deps =
      c.deps.map (fun d =>
        if d.ns = ns ∧ d.name = n1 then { d with role := r1 }
        else if d.ns = ns ∧ d.name = n2 then { d with role := r2 }
        else d) := by
  simp only [patchDeployRole, List.map_map]
  apply List.map_congr_left
  intro d _
  simp only [Function.comp]
  by_cases h1 : d.ns = ns
  · by_cases h2 : d.name = n1
    · simp [h1, h2, hne]
    · by_cases h3 : d.name = n2
      · simp [h1, h2, h3, Ne.symm hne]
      · simp [h1, h2, h3]
  · simp [h1]

theorem patchRole_frame (c : Cluster) (ns n r : String) :
    (patchDeployRole c ns n r).deps.map
        (fun d => (d.ns, d.name, d.app, d.replicas, d.image)) =
      c.deps.map (fun d => (d.ns, d.name, d.app, d.replicas, d.image)) := by
  simp only [patchDeployRole, List.map_map]
  apply List.map_congr_left
  intro d _
  by_cases h1 : d.ns = ns
  · by_cases h2 : d.name = n
    · simp [Function.comp, h1, h2]
    · simp [Function.comp, h1, h2]
  · simp [Function.comp, h1]

theorem upsert_deployment_snd (envNs : String) (spec : AppSpec)
    (c : Cluster) :
    (upsert_deployment envNs spec c).2 =
      deploymentBody (pyStrOr spec.ns envNs) spec := by
  simp only [upsert_deployment]
  split <;> rfl

theorem bg_promote_of_no_preview (envNs nm nsArg : String) (c : Cluster)
    (h : ∀ d ∈ listDeploymentsByApp c (pyStrOr nsArg envNs) nm,
      d.role ≠ "preview") :
    bg_promote envNs nm nsArg c = (c, .error (.apiException 404)) := by
  have hnone : lastWith (fun d => d.role == "preview")
      (listDeploymentsByApp c (pyStrOr nsArg envNs) nm) = none :=
    lastWith_eq_none_of_all _ _ (fun x hx => by
      rw [beq_eq_false_iff_ne]; exact h x hx)
  simp [bg_promote, hnone]

-- C4 -------------------------------------------------------------------

/-- C4: in every state in which no deployment carrying label app=<name> in
the resolved namespace has role=preview, bg_promote raises
ApiException(404), a NotFound-class error, and leaves the cluster state
completely unchanged. -/
theorem promote_without_preview_fails_closed (envNs nm nsArg : String)
    (c : Cluster)
    (h : ∀ d ∈ listDeploymentsByApp c (pyStrOr nsArg envNs) nm,
      d.role ≠ "preview") :
    bg_promote envNs nm nsArg c = (c, .error (.apiException 404)) :=
  bg_promote_of_no_preview envNs nm nsArg c h

/-- Witness for C4 at a concrete state holding only an active deployment. -/
theorem promote_without_preview_fails_closed_witness :
    bg_promote "default" "web" "t1"
      { deps := [⟨"t1", "web", "web", "active", 2, "img:v1"⟩] } =
    ({ deps := [⟨"t1", "web", "web", "active", 2, "img:v1"⟩] },
     .error (.apiException 404)) :=
  promote_without_preview_fails_closed "default" "web" "t1"
    { deps := [⟨"t1", "web", "web", "active", 2, "img:v1"⟩] } (by decide)

-- C5 -------------------------------------------------------------------

/-- C5 counterexample: with one active deployment and no preview,
bg_promote does not return a descriptive success result: it raises
ApiException(404).  The claim that promote without a preview is a no-op
returning a result rather than an error is false. -/
theorem promote_idempotent_noop_counterexample :
    (bg_promote "default" "web" "t1"
      { deps := [⟨"t1", "web", "web", "active", 2, "img:v1"⟩] }).2 =
      .error (.apiException 404) ∧
    exceptOk (bg_promote "default" "web" "t1"
      { deps := [⟨"t1", "web", "web", "active", 2, "img:v1"⟩] }).2 = false := by
  decide

/-- C5 amended: calling promote with no preview present performs no
mutation but raises an ApiException(404) error instead of returning a
descriptive no-op result. -/
theorem promote_without_preview_raises (envNs nm nsArg : String)
    (c : Cluster)
    (h : ∀ d ∈ listDeploymentsByApp c (pyStrOr nsArg envNs) nm,
      d.role ≠ "preview") :
    exceptOk (bg_promote envNs nm nsArg c).2 = false ∧
    (bg_promote envNs nm nsArg c).1 = c := by
  rw [bg_promote_of_no_preview envNs nm nsArg c h]
  exact ⟨rfl, rfl⟩

/-- Witness for the amended C5 at a concrete preview-free state. -/
theorem promote_without_preview_raises_witness :
    exceptOk (bg_promote "default" "web" "t1"
      { deps := [⟨"t1", "web", "web", "active", 2, "img:v1"⟩] }).2 = false ∧
    (bg_promote "default" "web" "t1"
      { deps := [⟨"t1", "web", "web", "active", 2, "img:v1"⟩] }).1 =
      { deps := [⟨"t1", "web", "web", "active", 2, "img:v1"⟩] } :=
  promote_without_preview_raises "default" "web" "t1"
    { deps := [⟨"t1", "web", "web", "active", 2, "img:v1"⟩] } (by decide)

-- C3 -------------------------------------------------------------------

/-- C3 counterexample: from a state with an active deployment at 2
replicas and a preview at 1 replica, bg_promote flips the role labels but
scales nothing: the demoted deployment keeps its 2 replicas although the
claim requires it to be scaled to 0. -/
theorem promote_scaling_counterexample :
    (bg_promote "default" "web" "t1"
      { deps := [⟨"t1", "web", "web", "active", 2, "img:v1"⟩,
                 ⟨"t1", "web-preview", "web", "preview", 1, "img:v2"⟩] }).1.deps
      = [⟨"t1", "web", "web", "idle", 2, "img:v1"⟩,
         ⟨"t1", "web-preview", "web", "active", 1, "img:v2"⟩] ∧
    ((bg_promote "default" "web" "t1"
      { deps := [⟨"t1", "web", "web", "active", 2, "img:v1"⟩,
                 ⟨"t1", "web-preview", "web", "preview", 1, "img:v2"⟩]
      }).1.deps.all
        (fun d => !(d.role == "idle") || d.replicas == 0)) = false := by
  decide

/-- C3 amended: when both a preview and an active deployment exist,
bg_promote patches exactly the two role labels, preview to active and the
prior active to idle; it performs no replica scaling and changes no other
field of any deployment, and it never touches the services. -/
theorem promote_flips_labels_only (envNs nm nsArg ns : String) (c : Cluster)
    (p a : KDeployment)
    (hns : pyStrOr nsArg envNs = ns)
    (hp : lastWith (fun d => d.role == "preview")
      (listDeploymentsByApp c ns nm) = some p)
    (ha : lastWith (fun d => d.role == "active")
      (listDeploymentsByApp c ns nm) = some a)
    (hne : p.name ≠ a.name) :
    (bg_promote envNs nm nsArg c).1.deps = c.deps.map (fun d =>
        if d.ns = ns ∧ d.name = p.name then { d with role := "active" }
        else if d.ns = ns ∧ d.name = a.name then { d with role := "idle" }
        else d) ∧
    (bg_promote envNs nm nsArg c).1.deps.map
        (fun d => (d.ns, d.name, d.app, d.replicas, d.image)) =
      c.deps.map (fun d => (d.ns, d.name, d.app, d.replicas, d.image)) ∧
    (bg_promote envNs nm nsArg c).1.svcs = c.svcs := by
  have hmain : (bg_promote envNs nm nsArg c).1 =
      patchDeployRole (patchDeployRole c ns p.name "active") ns a.name
        "idle" := by
    simp [bg_promote, hns, hp, ha]
  refine ⟨?_, ?_, ?_⟩
  · rw [hmain]
    exact patchRole_patchRole_deps c ns p.name a.name "active" "idle" hne
  · rw [hmain]
    exact (patchRole_frame (patchDeployRole c ns p.name "active") ns a.name
      "idle").trans (patchRole_frame c ns p.name "active")
  · rw [hmain]; rfl

/-- Witness for the amended C3 at a concrete two-deployment state. -/
theorem promote_flips_labels_only_witness :
    (bg_promote "default" "web" "t1"
      { deps := [⟨"t1", "web", "web", "active", 2, "img:v1"⟩,
                 ⟨"t1", "web-preview", "web", "preview", 1, "img:v2"⟩]
      }).1.deps =
      ([⟨"t1", "web", "web", "active", 2, "img:v1"⟩,
        ⟨"t1", "web-preview", "web", "preview", 1, "img:v2"⟩] :
        List KDeployment).map (fun d =>
          if d.ns = "t1" ∧ d.name = "web-preview" then
            { d with role := "active" }
          else if d.ns = "t1" ∧ d.name = "web" then { d with role := "idle" }
          else d) :=
  (promote_flips_labels_only "default" "web" "t1" "t1"
    { deps := [⟨"t1", "web", "web", "active", 2, "img:v1"⟩,
               ⟨"t1", "web-preview", "web", "preview", 1, "img:v2"⟩] }
    ⟨"t1", "web-preview", "web", "preview", 1, "img:v2"⟩
    ⟨"t1", "web", "web", "active", 2, "img:v1"⟩
    (by decide) (by decide) (by decide) (by decide)).1

-- C6 -------------------------------------------------------------------

/-- C6 counterexample: with an active deployment and an idle counterpart
but no preview, bg_rollback reports no action and leaves the state
unchanged, although the claim requires the roles of the active and the
idle counterpart to be swapped. -/
theorem rollback_idle_counterexample :
    bg_rollback "default" "web" "t1"
      { deps := [⟨"t1", "web", "web", "active", 2, "img:v1"⟩,
                 ⟨"t1", "web-preview", "web", "idle", 0, "img:v2"⟩] } =
    ({ deps := [⟨"t1", "web", "web", "active", 2, "img:v1"⟩,
                ⟨"t1", "web-preview", "web", "idle", 0, "img:v2"⟩] },
     .ok .note) ∧
    ((bg_rollback "default" "web" "t1"
      { deps := [⟨"t1", "web", "web", "active", 2, "img:v1"⟩,
                 ⟨"t1", "web-preview", "web", "idle", 0, "img:v2"⟩]
      }).1.deps.map (fun d => d.role)) = ["active", "idle"] := by
  decide

/-- C6 amended: bg_rollback only considers a preview counterpart.  When
both an active and a preview exist it swaps exactly their two role labels
with no replica scaling; when only a preview exists it promotes it to
active; in every state without a preview, including states holding an
idle counterpart, it reports no action and changes nothing. -/
theorem rollback_swaps_labels_only :
    (∀ (envNs nm nsArg ns : String) (c : Cluster) (p a : KDeployment),
      pyStrOr nsArg envNs = ns →
      lastWith (fun d => d.role == "preview")
        (listDeploymentsByApp c ns nm) = some p →
      lastWith (fun d => d.role == "active")
        (listDeploymentsByApp c ns nm) = some a →
      a.name ≠ p.name →
      (bg_rollback envNs nm nsArg c).1.deps = c.deps.map (fun d =>
          if d.ns = ns ∧ d.name = a.name then { d with role := "preview" }
          else if d.ns = ns ∧ d.name = p.name then { d with role := "active" }
          else d) ∧
      (bg_rollback envNs nm nsArg c).1.deps.map
          (fun d => (d.ns, d.name, d.app, d.replicas, d.image)) =
        c.deps.map (fun d => (d.ns, d.name, d.app, d.replicas, d.image)) ∧
      (bg_rollback envNs nm nsArg c).2 = .ok (.swapped a.name p.name)) ∧
    (∀ (envNs nm nsArg ns : String) (c : Cluster) (p : KDeployment),
      pyStrOr nsArg envNs = ns →
      lastWith (fun d => d.role == "preview")
        (listDeploymentsByApp c ns nm) = some p →
      lastWith (fun d => d.role == "active")
        (listDeploymentsByApp c ns nm) = none →
      (bg_rollback envNs nm nsArg c).1.deps = c.deps.map (fun d =>
          if d.ns = ns ∧ d.name = p.name then { d with role := "active" }
          else d) ∧
      (bg_rollback envNs nm nsArg c).2 = .ok (.promotedFromPreview p.name)) ∧
    (∀ (envNs nm nsArg ns : String) (c : Cluster),
      pyStrOr nsArg envNs = ns →
      lastWith (fun d => d.role == "preview")
        (listDeploymentsByApp c ns nm) = none →
      bg_rollback envNs nm nsArg c = (c, .ok .note)) := by
  refine ⟨?_, ?_, ?_⟩
  · intro envNs nm nsArg ns c p a hns hp ha hne
    have hmain : (bg_rollback envNs nm nsArg c).1 =
        patchDeployRole (patchDeployRole c ns a.name "preview") ns p.name
          "active" := by
      simp [bg_rollback, hns, hp, ha]
    refine ⟨?_, ?_, ?_⟩
    · rw [hmain]
      exact patchRole_patchRole_deps c ns a.name p.name "preview" "active"
        hne
    · rw [hmain]
      exact (patchRole_frame (patchDeployRole c ns a.name "preview") ns
        p.name "active").trans (patchRole_frame c ns a.name "preview")
    · simp [bg_rollback, hns, hp, ha]
  · intro envNs nm nsArg ns c p hns hp ha
    constructor
    · have hmain : (bg_rollback envNs nm nsArg c).1 =
          patchDeployRole c ns p.name "active" := by
        simp [bg_rollback, hns, hp, ha]
      rw [hmain]
      exact patchRole_deps c ns p.name "active"
    · simp [bg_rollback, hns, hp, ha]
  · intro envNs nm nsArg ns c hns hp
    simp [bg_rollback, hns, hp]

/-- Witness for the amended C6: swap case, preview-only case and no-action
case each applied at a concrete state. -/
theorem rollback_swaps_labels_only_witness :
    (bg_rollback "default" "web" "t1"
      { deps := [⟨"t1", "web", "web", "active", 2, "img:v1"⟩,
                 ⟨"t1", "web-preview", "web", "preview", 1, "img:v2"⟩]
      }).2 = .ok (.swapped "web" "web-preview") ∧
    (bg_rollback "default" "web" "t1"
      { deps := [⟨"t1", "web-preview", "web", "preview", 1, "img:v2"⟩]
      }).2 = .ok (.promotedFromPreview "web-preview") ∧
    bg_rollback "default" "web" "t1"
      { deps := [⟨"t1", "web", "web", "active", 2, "img:v1"⟩] } =
      ({ deps := [⟨"t1", "web", "web", "active", 2, "img:v1"⟩] }, .ok .note) :=
  ⟨(rollback_swaps_labels_only.1 "default" "web" "t1" "t1"
      { deps := [⟨"t1", "web", "web", "active", 2, "img:v1"⟩,
                 ⟨"t1", "web-preview", "web", "preview", 1, "img:v2"⟩] }
      ⟨"t1", "web-preview", "web", "preview", 1, "img:v2"⟩
      ⟨"t1", "web", "web", "active", 2, "img:v1"⟩
      (by decide) (by decide) (by decide) (by decide)).2.2,
   (rollback_swaps_labels_only.2.1 "default" "web" "t1" "t1"
      { deps := [⟨"t1", "web-preview", "web", "preview", 1, "img:v2"⟩] }
      ⟨"t1", "web-preview", "web", "preview", 1, "img:v2"⟩
      (by decide) (by decide) (by decide)).2,
   rollback_swaps_labels_only.2.2 "default" "web" "t1" "t1"
      { deps := [⟨"t1", "web", "web", "active", 2, "img:v1"⟩] }
      (by decide) (by decide)⟩

-- C8 -------------------------------------------------------------------

/-- C8 counterexample: in the upsert skeleton shared by upsert_deployment
and upsert_service, a read that sees NotFound followed by a create that
returns 409 Conflict (a racing creator) makes the whole operation raise
the 409, not return success: the create runs inside the ApiException
handler, whose exceptions propagate. -/
theorem create_race_conflict_counterexample :
    upsertRaceFlow (Except.error 404 : Except Nat KDeployment)
      (Except.error 409) = Except.error 409 ∧
    exceptOk (upsertRaceFlow (Except.error 404 : Except Nat KDeployment)
      (Except.error 409)) = false := by
  decide

/-- C8 amended: a 409 Conflict raised by the racing create propagates as
an error out of the upsert skeleton used by upsert_deployment and
upsert_service, and equally out of the service-account, role and
role-binding steps of create_tenant_namespace; only the namespace step of
create_tenant_namespace swallows the conflict and reports the item as
not newly created. -/
theorem create_race_conflict_amended :
    (∀ (v : KDeployment),
      upsertRaceFlow (Except.error 404 : Except Nat KDeployment)
        (Except.error 409) ≠ Except.ok v) ∧
    upsertRaceFlow (Except.error 404 : Except Nat Unit) (Except.error 409) =
      Except.error 409 ∧
    ensureStepFlow (Except.error 404) (Except.error 409) =
      Except.error 409 ∧
    ensureNamespaceFlow (Except.error 404) (Except.error 409) =
      Except.ok false := by
  refine ⟨?_, by decide, by decide, by decide⟩
  intro v h
  simp [upsertRaceFlow] at h

-- C9 -------------------------------------------------------------------

/-- C9: create_tenant_namespace cannot provision at all, let alone
idempotently: its second statement subscripts the client dict with
"rbac", a key get_api_clients never returns, so every call raises
KeyError("rbac") before reading or creating anything, and no summary of
created or existing items is ever produced.  This contradicts the
function's own idempotence docstring. -/
theorem tenant_provision_always_raises (ns : String) (c : Cluster) :
    create_tenant_namespace ns c = (c, .error (.keyError "rbac")) := rfl

-- C10 ------------------------------------------------------------------

/-- C10: create_ingress_for_app always raises before any Ingress is
created: the client dict lookup of "networking" raises KeyError (the
factory only returns apps, core and custom), and even if a networking
client were present, the next statement reads the never-assigned local
variable ctx, a NameError.  upsert_service wraps the call in a catch-all
handler, so it leaves the ingress state unchanged and still returns its
service result successfully whenever its own permission checks pass.
Consequently no Ingress is ever created by the deploy path. -/
theorem ingress_never_created :
    (∀ (appName ns : String) (c : Cluster),
      create_ingress_for_app appName ns c =
        (c, .error (.keyError "networking"))) ∧
    (∀ (k : ApiClientKind) (appName ns : String) (c : Cluster),
      create_ingress_with_clients (("networking", k) :: get_api_clients)
        appName ns c = (c, .error (.nameError "ctx"))) ∧
    (∀ (spec : AppSpec) (ctx : CurrentContext) (c : Cluster),
      (upsert_service spec ctx c).1.ingresses = c.ingresses) ∧
    (∀ (spec : AppSpec) (ctx : CurrentContext) (c : Cluster),
      ctx.role ≠ "platform_admin" →
      pyOptOr ctx.k8s_namespace (pyStrOr spec.ns "default") ≠ "default" →
      exceptOk (upsert_service spec ctx c).2 = true) := by
  refine ⟨?_, ?_, ?_, ?_⟩
  · intro appName ns c; rfl
  · intro k appName ns c; rfl
  · intro spec ctx c
    by_cases h1 : ctx.role = "platform_admin" ∧
        pyOptOr ctx.k8s_namespace (pyStrOr spec.ns "default") ≠ "default"
    · simp [upsert_service, h1]
    · by_cases h2 : ctx.role ≠ "platform_admin" ∧
          pyOptOr ctx.k8s_namespace (pyStrOr spec.ns "default") = "default"
      · simp [upsert_service, h1, h2]
      · cases hfound : readService c
            (pyOptOr ctx.k8s_namespace (pyStrOr spec.ns "default"))
            spec.effective_service_name with
        | none =>
          simp [upsert_service, h1, h2, hfound, create_ingress_for_app,
            create_ingress_with_clients, dictGet, get_api_clients,
            writeService]
        | some s0 =>
          simp [upsert_service, h1, h2, hfound, create_ingress_for_app,
            create_ingress_with_clients, dictGet, get_api_clients,
            writeService]
  · intro spec ctx c hrole hns
    have h1 : ¬ (ctx.role = "platform_admin" ∧
        pyOptOr ctx.k8s_namespace (pyStrOr spec.ns "default") ≠ "default") :=
      fun h => hrole h.1
    have h2 : ¬ (ctx.role ≠ "platform_admin" ∧
        pyOptOr ctx.k8s_namespace (pyStrOr spec.ns "default") = "default") :=
      fun h => hns h.2
    cases hfound : readService c
        (pyOptOr ctx.k8s_namespace (pyStrOr spec.ns "default"))
        spec.effective_service_name with
    | none =>
      simp [upsert_service, h1, h2, hfound, create_ingress_for_app,
        create_ingress_with_clients, dictGet, get_api_clients, exceptOk]
    | some s0 =>
      simp [upsert_service, h1, h2, hfound, create_ingress_for_app,
        create_ingress_with_clients, dictGet, get_api_clients, exceptOk]

/-- Witness for C10's final conjunct: a tenant deploys into its own
namespace over a pre-existing service; the upsert succeeds. -/
theorem ingress_never_created_witness :
    exceptOk (upsert_service
      { name := "web", ns := "t1", image := "img", tag := "v1",
        port := 3000 }
      ⟨"user", some "t1"⟩
      { svcs := [⟨"t1", "web", "NodePort", 80, some 30080, 8080, "web",
                  "UDP", [("app", "web")], []⟩] }).2 = true :=
  ingress_never_created.2.2.2
    { name := "web", ns := "t1", image := "img", tag := "v1", port := 3000 }
    ⟨"user", some "t1"⟩
    { svcs := [⟨"t1", "web", "NodePort", 80, some 30080, 8080, "web",
                "UDP", [("app", "web")], []⟩] }
    (by decide) (by decide)

-- C7 -------------------------------------------------------------------

/-- C7 counterexample: adopting a pre-existing NodePort service whose port
entry is named "web" with protocol UDP, the upsert rewrites that entry's
name to "http" and protocol to "TCP" — fields other than the target-port
and labels/selector are changed, refuting the claim that only those are
patched (type, cluster port and node port are indeed preserved). -/
theorem service_adoption_counterexample :
    (upsert_service
      { name := "web", ns := "t1", image := "img", tag := "v1",
        port := 3000 }
      ⟨"user", some "t1"⟩
      { svcs := [⟨"t1", "web", "NodePort", 80, some 30080, 8080, "web",
                  "UDP", [("app", "web")], []⟩] }).2 =
      .ok ⟨"t1", "web", "NodePort", 80, some 30080, 3000, "http", "TCP",
           [("app", "web"), ("role", "active")],
           platformLabels "web" "active"⟩ ∧
    ("http" : String) ≠ "web" ∧ ("TCP" : String) ≠ "UDP" := by
  decide

/-- C7 amended: when upsert_service finds a service by name it preserves
the service's access mode (type) and its externally-assigned port details
(the existing cluster port, and the node port for NodePort services)
and patches the target-port to the spec's effective port and the labels
and selector to the platform labels with app=<label> and role=active; in
addition it normalizes the port entry's name to "http" and its protocol
to "TCP". -/
theorem service_adoption_amended (spec : AppSpec) (ctx : CurrentContext)
    (c : Cluster) (s0 : KService) (ns : String)
    (hns : pyOptOr ctx.k8s_namespace (pyStrOr spec.ns "default") = ns)
    (hrole : ctx.role ≠ "platform_admin")
    (hnd : ns ≠ "default")
    (hfound : readService c ns spec.effective_service_name = some s0)
    (htype : s0.svcType ≠ "") :
    upsert_service spec ctx c =
      (writeService c ns spec.effective_service_name
        (servicePatchBody s0 spec.effective_app_label spec.effective_port),
       .ok (servicePatchBody s0 spec.effective_app_label
         spec.effective_port)) ∧
    (servicePatchBody s0 spec.effective_app_label
      spec.effective_port).svcType = s0.svcType ∧
    (servicePatchBody s0 spec.effective_app_label
      spec.effective_port).port = s0.port ∧
    (s0.svcType = "NodePort" →
      (servicePatchBody s0 spec.effective_app_label
        spec.effective_port).nodePort = s0.nodePort) ∧
    (servicePatchBody s0 spec.effective_app_label
      spec.effective_port).targetPort = spec.effective_port ∧
    (servicePatchBody s0 spec.effective_app_label
      spec.effective_port).selector =
      [("app", spec.effective_app_label), ("role", "active")] ∧
    (servicePatchBody s0 spec.effective_app_label
      spec.effective_port).labels =
      platformLabels spec.effective_app_label "active" ∧
    (servicePatchBody s0 spec.effective_app_label
      spec.effective_port).ns = s0.ns ∧
    (servicePatchBody s0 spec.effective_app_label
      spec.effective_port).name = s0.name := by
  have h1 : ¬ (ctx.role = "platform_admin" ∧ ¬ ns = "default") :=
    fun h => hrole h.1
  have h2 : ¬ (¬ ctx.role = "platform_admin" ∧ ns = "default") :=
    fun h => hnd h.2
  have hst : pyStrOr s0.svcType "ClusterIP" = s0.svcType := by
    simp [pyStrOr, htype]
  refine ⟨?_, ?_, rfl, ?_, rfl, rfl, rfl, rfl, rfl⟩
  · simp [upsert_service, hns, h1, h2, hfound, create_ingress_for_app,
      create_ingress_with_clients, dictGet, get_api_clients]
  · simp [servicePatchBody, hst]
  · intro hnp
    simp [servicePatchBody, pyStrOr, hnp]

/-- Witness for the amended C7 at the concrete NodePort adoption. -/
theorem service_adoption_amended_witness :
    upsert_service
        { name := "web", ns := "t1", image := "img", tag := "v1",
          port := 3000 }
        ⟨"user", some "t1"⟩
        { svcs := [⟨"t1", "web", "NodePort", 80, some 30080, 8080, "web",
                    "UDP", [("app", "web")], []⟩] } =
      (writeService
        { svcs := [⟨"t1", "web", "NodePort", 80, some 30080, 8080, "web",
                    "UDP", [("app", "web")], []⟩] }
        "t1" "web"
        (servicePatchBody
          ⟨"t1", "web", "NodePort", 80, some 30080, 8080, "web", "UDP",
           [("app", "web")], []⟩ "web" 3000),
       .ok (servicePatchBody
          ⟨"t1", "web", "NodePort", 80, some 30080, 8080, "web", "UDP",
           [("app", "web")], []⟩ "web" 3000)) :=
  (service_adoption_amended
    { name := "web", ns := "t1", image := "img", tag := "v1", port := 3000 }
    ⟨"user", some "t1"⟩
    { svcs := [⟨"t1", "web", "NodePort", 80, some 30080, 8080, "web",
                "UDP", [("app", "web")], []⟩] }
    ⟨"t1", "web", "NodePort", 80, some 30080, 8080, "web", "UDP",
     [("app", "web")], []⟩
    "t1" (by decide) (by decide) (by decide) (by decide) (by decide)).1

-- C1 -------------------------------------------------------------------

/-- C1 counterexample: a tenant principal with the stored default role
admin and bound namespace tenant-a requesting tenant-b is not rejected:
verify_namespace_access treats the role admin as privileged and returns
the foreign namespace.  Moreover the blue-green prepare endpoint performs
no namespace check at all: the same principal submitting a spec whose
namespace is tenant-b gets a preview deployment created in tenant-b, a
backend mutation in a foreign namespace, and the endpoint reports
success. -/
theorem namespace_isolation_counterexample :
    verify_namespace_access ⟨"admin", some "tenant-a"⟩ (some "tenant-b") =
      .ok (some "tenant-b") ∧
    (bluegreen_prepare_ep ⟨"admin", some "tenant-a"⟩
      { name := "web", ns := "tenant-b", image := "img", tag := "v1",
        port := 8080 }
      "default" Cluster.empty).1.deps =
      [⟨"tenant-b", "web-preview", "web", "preview", 1, "img:v1"⟩] ∧
    exceptOk (bluegreen_prepare_ep ⟨"admin", some "tenant-a"⟩
      { name := "web", ns := "tenant-b", image := "img", tag := "v1",
        port := 8080 }
      "default" Cluster.empty).2 = true := by
  decide

/-- C1 amended: verify_namespace_access rejects a non-empty requested
namespace different from the bound one with HTTP 403 only for principals
whose lowercased role is neither admin nor platform_admin — tenant users
carrying the stored default role admin are treated as privileged and pass
— and the deploy endpoint never sends a non-platform_admin principal's
deployment to a foreign namespace because it overwrites the requested
namespace with the token-bound one; the blue-green prepare endpoint,
by contrast, performs no namespace check (see the counterexample). -/
theorem namespace_guard_amended :
    (∀ (ctx : CurrentContext) (r : String),
      pyLower ctx.role ≠ "admin" → pyLower ctx.role ≠ "platform_admin" →
      r ≠ "" → some r ≠ ctx.k8s_namespace →
      verify_namespace_access ctx (some r) = .error (.httpError 403)) ∧
    (∀ (ctx : CurrentContext) (spec : AppSpec) (envNs : String)
        (c : Cluster) (t : String) (res : DeployResult),
      pyLower ctx.role ≠ "platform_admin" → ctx.k8s_namespace = some t →
      t ≠ "" → (deploy_app ctx spec envNs c).2 = .ok res →
      res.deployment.ns = t) := by
  constructor
  · intro ctx r hadm hpa hr hne
    have hcond : pyTruthy (some r) ∧ (some r : Option String) ≠
        ctx.k8s_namespace := ⟨by simp [pyTruthy, hr], hne⟩
    simp [verify_namespace_access, hadm, hpa, hcond]
  · intro ctx spec envNs c t res hpa htok ht hok
    have hfin : (if pyLower ctx.role = "platform_admin" then
        Except.ok (pyStrOr spec.ns (pyOptOr ctx.k8s_namespace "default"))
      else if pyTruthy ctx.k8s_namespace then
        Except.ok (pyOptOr ctx.k8s_namespace "default")
      else Except.error (PyErr.httpError 400)) = Except.ok t := by
      rw [if_neg hpa]
      simp [htok, pyTruthy, pyOptOr, ht]
    simp only [deploy_app] at hok
    rw [hfin] at hok
    dsimp only at hok
    cases hver : verify_namespace_access ctx (some t) with
    | error e => rw [hver] at hok; simp at hok
    | ok v =>
      rw [hver] at hok
      simp only at hok
      cases hsvc : upsert_service { spec with ns := t } ctx
          ((upsert_deployment envNs { spec with ns := t } c).1) with
      | mk c2 r2 =>
        cases r2 with
        | error e => rw [hsvc] at hok; simp at hok
        | ok svc =>
          rw [hsvc] at hok
          simp only [Except.ok.injEq] at hok
          have hdep : res.deployment =
              (upsert_deployment envNs { spec with ns := t } c).2 := by
            rw [← hok]
          rw [hdep, upsert_deployment_snd]
          simp [deploymentBody, pyStrOr, ht]

/-- Witness for the amended C1: a genuinely non-privileged role is
rejected, and a tenant deploy lands in the token namespace. -/
theorem namespace_guard_amended_witness :
    verify_namespace_access ⟨"user", some "t1"⟩ (some "t2") =
      .error (.httpError 403) ∧
    ((deploy_app ⟨"user", some "t1"⟩
      { name := "web", ns := "t2", image := "img", tag := "v1",
        port := 3000 }
      "default"
      { svcs := [⟨"t1", "web", "NodePort", 80, some 30080, 8080, "web",
                  "UDP", [("app", "web")], []⟩] }).2 =
      .ok { deployment := ⟨"t1", "web", "web", "active", 1, "img:v1"⟩,
            service := servicePatchBody
              ⟨"t1", "web", "NodePort", 80, some 30080, 8080, "web", "UDP",
               [("app", "web")], []⟩ "web" 3000 } ∧
     (⟨"t1", "web", "web", "active", 1, "img:v1"⟩ : KDeployment).ns = "t1") :=
  ⟨namespace_guard_amended.1 ⟨"user", some "t1"⟩ "t2"
    (by decide) (by decide) (by decide) (by decide),
   by decide,
   namespace_guard_amended.2 ⟨"user", some "t1"⟩
    { name := "web", ns := "t2", image := "img", tag := "v1", port := 3000 }
    "default"
    { svcs := [⟨"t1", "web", "NodePort", 80, some 30080, 8080, "web",
                "UDP", [("app", "web")], []⟩] }
    "t1"
    { deployment := ⟨"t1", "web", "web", "active", 1, "img:v1"⟩,
      service := servicePatchBody
        ⟨"t1", "web", "NodePort", 80, some 30080, 8080, "web", "UDP",
         [("app", "web")], []⟩ "web" 3000 }
    (by decide) (by decide) (by decide) (by decide)⟩

-- C2 helper lemmas -----------------------------------------------------

theorem base_ne_preview (a : String) : a ≠ a ++ "-preview" := by
  intro h
  have hd : a.data.length =
      a.data.length + ("-preview" : String).data.length := by
    conv_lhs => rw [h]
    rw [String.data_append, List.length_append]
  have h8 : ("-preview" : String).data.length = 8 := by decide
  omega

theorem pyStrOr_of_ne (s b : String) (h : s ≠ "") : pyStrOr s b = s := by
  simp [pyStrOr, h]

theorem specFor_label (ns a img tag : String) (r : Nat) :
    (specFor ns a img tag r).effective_app_label = a := rfl

theorem applyBG_deploy (envNs ns a img tag : String) (r : Nat)
    (hns : ns ≠ "") (c : Cluster) :
    applyBG envNs ns a c (.deploy img tag r) =
      match readDeployment c ns a with
      | some _ =>
        patchDeploymentFull c ns a (deploymentBody ns (specFor ns a img tag r))
      | none =>
        { c with deps :=
            c.deps ++ [deploymentBody ns (specFor ns a img tag r)] } := by
  have h1 : pyStrOr (specFor ns a img tag r).ns envNs = ns :=
    pyStrOr_of_ne ns envNs hns
  have h2 : (deploymentBody ns (specFor ns a img tag r)).name = a := rfl
  simp only [applyBG, upsert_deployment, h1, h2]
  cases readDeployment c ns a <;> rfl

theorem applyBG_prepare (envNs ns a img tag : String) (r : Nat)
    (hns : ns ≠ "") (c : Cluster) :
    applyBG envNs ns a c (.prepare img tag r) =
      match readDeployment c ns (a ++ "-preview") with
      | some _ =>
        patchDeploymentFull c ns (a ++ "-preview")
          (previewBody ns (specFor ns a img tag r))
      | none =>
        { c with deps :=
            c.deps ++ [previewBody ns (specFor ns a img tag r)] } := by
  have h1 : pyStrOr (specFor ns a img tag r).ns envNs = ns :=
    pyStrOr_of_ne ns envNs hns
  have h2 : (previewBody ns (specFor ns a img tag r)).name =
      a ++ "-preview" := rfl
  simp only [applyBG, bg_prepare, h1, h2]
  cases readDeployment c ns (a ++ "-preview") <;> rfl

theorem deploy_preserves (envNs ns a img tag : String) (r : Nat)
    (hns : ns ≠ "") (c : Cluster) (hc : CharBG ns a c) (hinv : InvBG ns a c)
    (hg : goodBG ns a c (.deploy img tag r) = true) :
    CharBG ns a (applyBG envNs ns a c (.deploy img tag r)) ∧
    InvBG ns a (applyBG envNs ns a c (.deploy img tag r)) := by
  rw [applyBG_deploy envNs ns a img tag r hns c]
  have hapre := base_ne_preview a
  have hpa : a ++ "-preview" ≠ a := Ne.symm hapre
  rcases hdl : c.deps with _ | ⟨d, _ | ⟨e, _ | ⟨f, l⟩⟩⟩
  · -- no deployments: the body is created
    simp [readDeployment, hdl, CharBG, charDeps, okdBG, InvBG, InvListBG,
      roleList, deploymentBody, specFor, AppSpec.effective_app_label,
      pyOptOr, hpa, hapre]
  · -- one deployment d
    simp only [CharBG, charDeps, okdBG, hdl] at hc
    obtain ⟨hdns, hdapp, hdname⟩ := hc
    rcases hdname with hna | hnp
    · -- d is the base deployment: it is patched in place
      simp [readDeployment, hdl, hdns, hna, patchDeploymentFull, CharBG,
        charDeps, okdBG, InvBG, InvListBG, roleList, deploymentBody,
        specFor, AppSpec.effective_app_label, pyOptOr, hpa, hapre, hpa]
    · -- d is the preview-named deployment: the base body is appended
      have hda : d.name ≠ a := by rw [hnp]; exact Ne.symm hapre
      by_cases hact : d.role = "active"
      · -- excluded by the guard: an active deployment not named a
        exfalso
        simp [goodBG, roleDeps, roleList, hdl, hdns, hdapp, hact,
          hda] at hg
      · by_cases hprev : d.role = "preview"
        · simp [readDeployment, hdl, hdns, hda, CharBG, charDeps, okdBG,
            InvBG, InvListBG, roleList, deploymentBody, specFor,
            AppSpec.effective_app_label, pyOptOr, hpa, hapre, hnp, Ne.symm hapre,
            hact, hprev, hdapp]
        · simp [readDeployment, hdl, hdns, hda, CharBG, charDeps, okdBG,
            InvBG, InvListBG, roleList, deploymentBody, specFor,
            AppSpec.effective_app_label, pyOptOr, hpa, hapre, hnp, Ne.symm hapre,
            hact, hprev, hdapp]
  · -- two deployments d, e
    simp only [CharBG, charDeps, okdBG, hdl] at hc
    obtain ⟨⟨hdns, hdapp, hdname⟩, ⟨hens, heapp, hename⟩, hde⟩ := hc
    rcases hdname with hda | hdp
    · -- d is the base deployment, e must be the preview-named one
      have hep : e.name = a ++ "-preview" := by
        rcases hename with h | h
        · exact absurd (hda.trans h.symm) hde
        · exact h
      have hea : e.name ≠ a := by rw [hep]; exact Ne.symm hapre
      by_cases heact : e.role = "active"
      · exfalso
        simp [goodBG, roleDeps, roleList, hdl, hens, heapp, heact,
          hea] at hg
      · by_cases heprev : e.role = "preview"
        · simp [readDeployment, hdl, hdns, hda, patchDeploymentFull,
            CharBG, charDeps, okdBG, InvBG, InvListBG, roleList,
            deploymentBody, specFor, AppSpec.effective_app_label, pyOptOr, hpa, hapre, hep, hens, heapp, heact, heprev, hde, hea]
        · simp [readDeployment, hdl, hdns, hda, patchDeploymentFull,
            CharBG, charDeps, okdBG, InvBG, InvListBG, roleList,
            deploymentBody, specFor, AppSpec.effective_app_label, pyOptOr, hpa, hapre, hep, hens, heapp, heact, heprev, hde, hea]
    · -- d is the preview-named deployment, e must be the base one
      have hea : e.name = a := by
        rcases hename with h | h
        · exact h
        · exact absurd (hdp.trans h.symm) hde
      have hda : d.name ≠ a := by rw [hdp]; exact Ne.symm hapre
      by_cases hdact : d.role = "active"
      · exfalso
        simp [goodBG, roleDeps, roleList, hdl, hdns, hdapp, hdact,
          hda] at hg
      · by_cases hdprev : d.role = "preview"
        · simp [readDeployment, hdl, hdns, hda, hens, hea,
            patchDeploymentFull, CharBG, charDeps, okdBG, InvBG,
            InvListBG, roleList, deploymentBody, specFor,
            AppSpec.effective_app_label, pyOptOr, hpa, hapre, hdp, hdapp, hdact,
            hdprev, hde]
        · simp [readDeployment, hdl, hdns, hda, hens, hea,
            patchDeploymentFull, CharBG, charDeps, okdBG, InvBG,
            InvListBG, roleList, deploymentBody, specFor,
            AppSpec.effective_app_label, pyOptOr, hpa, hapre, hdp, hdapp, hdact,
            hdprev, hde]
  · -- three or more deployments: excluded by the characterisation
    simp [CharBG, charDeps, hdl] at hc

theorem prepare_preserves (envNs ns a img tag : String) (r : Nat)
    (hns : ns ≠ "") (c : Cluster) (hc : CharBG ns a c) (hinv : InvBG ns a c)
    (hg : goodBG ns a c (.prepare img tag r) = true) :
    CharBG ns a (applyBG envNs ns a c (.prepare img tag r)) ∧
    InvBG ns a (applyBG envNs ns a c (.prepare img tag r)) := by
  rw [applyBG_prepare envNs ns a img tag r hns c]
  have hapre := base_ne_preview a
  have hpa : a ++ "-preview" ≠ a := Ne.symm hapre
  rcases hdl : c.deps with _ | ⟨d, _ | ⟨e, _ | ⟨f, l⟩⟩⟩
  · simp [readDeployment, hdl, CharBG, charDeps, okdBG, InvBG, InvListBG,
      roleList, previewBody, specFor, AppSpec.effective_app_label,
      pyOptOr, hpa, hapre]
  · simp only [CharBG, charDeps, okdBG, hdl] at hc
    obtain ⟨hdns, hdapp, hdname⟩ := hc
    rcases hdname with hna | hnp
    · -- d is the base deployment: the preview body is appended
      have hdap : d.name ≠ a ++ "-preview" := by rw [hna]; exact hapre
      by_cases hprev : d.role = "preview"
      · -- excluded by the guard: a preview deployment not named a-preview
        exfalso
        simp [goodBG, roleDeps, roleList, hdl, hdns, hdapp, hprev,
          hdap] at hg
      · by_cases hact : d.role = "active"
        · simp [readDeployment, hdl, hdns, hdap, CharBG, charDeps, okdBG,
            InvBG, InvListBG, roleList, previewBody, specFor,
            AppSpec.effective_app_label, pyOptOr, hpa, hapre, hna, hprev,
            hact, hdapp]
        · simp [readDeployment, hdl, hdns, hdap, CharBG, charDeps, okdBG,
            InvBG, InvListBG, roleList, previewBody, specFor,
            AppSpec.effective_app_label, pyOptOr, hpa, hapre, hna, hprev,
            hact, hdapp]
    · -- d is the preview-named deployment: it is patched in place
      simp [readDeployment, hdl, hdns, hnp, patchDeploymentFull, CharBG,
        charDeps, okdBG, InvBG, InvListBG, roleList, previewBody, specFor,
        AppSpec.effective_app_label, pyOptOr, hpa, hapre]
  · simp only [CharBG, charDeps, okdBG, hdl] at hc
    obtain ⟨⟨hdns, hdapp, hdname⟩, ⟨hens, heapp, hename⟩, hde⟩ := hc
    rcases hdname with hda | hdp
    · -- d is the base one, e is the preview-named one: e is patched
      have hep : e.name = a ++ "-preview" := by
        rcases hename with h | h
        · exact absurd (hda.trans h.symm) hde
        · exact h
      have hdap : d.name ≠ a ++ "-preview" := by rw [hda]; exact hapre
      by_cases hdprev : d.role = "preview"
      · exfalso
        simp [goodBG, roleDeps, roleList, hdl, hdns, hdapp, hdprev,
          hdap] at hg
      · by_cases hdact : d.role = "active"
        · simp [readDeployment, hdl, hdns, hens, hda, hep, hdap,
            patchDeploymentFull, CharBG, charDeps, okdBG, InvBG,
            InvListBG, roleList, previewBody, specFor,
            AppSpec.effective_app_label, pyOptOr, hpa, hapre, hdprev,
            hdact, hdapp, heapp, hde]
        · simp [readDeployment, hdl, hdns, hens, hda, hep, hdap,
            patchDeploymentFull, CharBG, charDeps, okdBG, InvBG,
            InvListBG, roleList, previewBody, specFor,
            AppSpec.effective_app_label, pyOptOr, hpa, hapre, hdprev,
            hdact, hdapp, heapp, hde]
    · -- d is the preview-named one: it is patched
      have hea : e.name = a := by
        rcases hename with h | h
        · exact h
        · exact absurd (hdp.trans h.symm) hde
      have heap : e.name ≠ a ++ "-preview" := by rw [hea]; exact hapre
      by_cases heprev : e.role = "preview"
      · exfalso
        simp [goodBG, roleDeps, roleList, hdl, hens, heapp, heprev,
          heap] at hg
      · by_cases heact : e.role = "active"
        · simp [readDeployment, hdl, hdns, hens, hdp, hea, heap,
            patchDeploymentFull, CharBG, charDeps, okdBG, InvBG,
            InvListBG, roleList, previewBody, specFor,
            AppSpec.effective_app_label, pyOptOr, hpa, hapre, heprev,
            heact, hdapp, heapp, hde]
        · simp [readDeployment, hdl, hdns, hens, hdp, hea, heap,
            patchDeploymentFull, CharBG, charDeps, okdBG, InvBG,
            InvListBG, roleList, previewBody, specFor,
            AppSpec.effective_app_label, pyOptOr, hpa, hapre, heprev,
            heact, hdapp, heapp, hde]
  · simp [CharBG, charDeps, hdl] at hc

theorem promote_preserves (envNs ns a : String) (hns : ns ≠ "")
    (c : Cluster) (hc : CharBG ns a c) (hinv : InvBG ns a c) :
    CharBG ns a (applyBG envNs ns a c .promote) ∧
    InvBG ns a (applyBG envNs ns a c .promote) := by
  have hres : pyStrOr ns envNs = ns := pyStrOr_of_ne ns envNs hns
  rcases hdl : c.deps with _ | ⟨d, _ | ⟨e, _ | ⟨f, l⟩⟩⟩
  · have hstate : applyBG envNs ns a c .promote = c := by
      simp [applyBG, bg_promote, hres, listDeploymentsByApp, hdl, lastWith]
    rw [hstate]; exact ⟨hc, hinv⟩
  · simp only [CharBG, charDeps, okdBG, hdl] at hc
    obtain ⟨hdns, hdapp, hdname⟩ := hc
    by_cases hdprev : d.role = "preview"
    · have hdeps : (applyBG envNs ns a c .promote).deps =
          [{ d with role := "active" }] := by
        simp [applyBG, bg_promote, hres, listDeploymentsByApp, hdl,
          lastWith, hdns, hdapp, hdprev, patchDeployRole]
      constructor
      · simp only [CharBG, hdeps, charDeps, okdBG]
        exact ⟨hdns, hdapp, hdname⟩
      · simp [InvBG, hdeps, InvListBG, roleList, hdns, hdapp]
    · have hstate : applyBG envNs ns a c .promote = c := by
        simp [applyBG, bg_promote, hres, listDeploymentsByApp, hdl,
          lastWith, hdns, hdapp, hdprev]
      rw [hstate]
      refine ⟨?_, hinv⟩
      simp only [CharBG, charDeps, okdBG, hdl]
      exact ⟨hdns, hdapp, hdname⟩
  · simp only [CharBG, charDeps, okdBG, hdl] at hc
    obtain ⟨⟨hdns, hdapp, hdname⟩, ⟨hens, heapp, hename⟩, hde⟩ := hc
    have hed : e.name ≠ d.name := Ne.symm hde
    by_cases hdprev : d.role = "preview"
    · by_cases heprev : e.role = "preview"
      · exfalso
        simp [InvBG, InvListBG, roleList, hdl, hdns, hdapp, hens, heapp,
          hdprev, heprev] at hinv
      · by_cases heact : e.role = "active"
        · have hdeps : (applyBG envNs ns a c .promote).deps =
              [{ d with role := "active" }, { e with role := "idle" }] := by
            simp [applyBG, bg_promote, hres, listDeploymentsByApp, hdl,
              lastWith, hdns, hdapp, hens, heapp, hdprev, heprev, heact,
              patchDeployRole, hde, hed]
          constructor
          · simp only [CharBG, hdeps, charDeps, okdBG]
            exact ⟨⟨hdns, hdapp, hdname⟩, ⟨hens, heapp, hename⟩, hde⟩
          · simp [InvBG, hdeps, InvListBG, roleList, hdns, hdapp, hens,
              heapp]
        · have hdeps : (applyBG envNs ns a c .promote).deps =
              [{ d with role := "active" }, e] := by
            simp [applyBG, bg_promote, hres, listDeploymentsByApp, hdl,
              lastWith, hdns, hdapp, hens, heapp, hdprev, heprev, heact,
              patchDeployRole, hde, hed]
          constructor
          · simp only [CharBG, hdeps, charDeps, okdBG]
            exact ⟨⟨hdns, hdapp, hdname⟩, ⟨hens, heapp, hename⟩, hde⟩
          · simp [InvBG, hdeps, InvListBG, roleList, hdns, hdapp, hens,
              heapp, heact, heprev]
    · by_cases heprev : e.role = "preview"
      · by_cases hdact : d.role = "active"
        · have hdeps : (applyBG envNs ns a c .promote).deps =
              [{ d with role := "idle" }, { e with role := "active" }] := by
            simp [applyBG, bg_promote, hres, listDeploymentsByApp, hdl,
              lastWith, hdns, hdapp, hens, heapp, hdprev, heprev, hdact,
              patchDeployRole, hde, hed]
          constructor
          · simp only [CharBG, hdeps, charDeps, okdBG]
            exact ⟨⟨hdns, hdapp, hdname⟩, ⟨hens, heapp, hename⟩, hde⟩
          · simp [InvBG, hdeps, InvListBG, roleList, hdns, hdapp, hens,
              heapp]
        · have hdeps : (applyBG envNs ns a c .promote).deps =
              [d, { e with role := "active" }] := by
            simp [applyBG, bg_promote, hres, listDeploymentsByApp, hdl,
              lastWith, hdns, hdapp, hens, heapp, hdprev, heprev, hdact,
              patchDeployRole, hde, hed]
          constructor
          · simp only [CharBG, hdeps, charDeps, okdBG]
            exact ⟨⟨hdns, hdapp, hdname⟩, ⟨hens, heapp, hename⟩, hde⟩
          · simp [InvBG, hdeps, InvListBG, roleList, hdns, hdapp, hens,
              heapp, hdact, hdprev]
      · have hstate : applyBG envNs ns a c .promote = c := by
          simp [applyBG, bg_promote, hres, listDeploymentsByApp, hdl,
            lastWith, hdns, hdapp, hens, heapp, hdprev, heprev]
        rw [hstate]
        refine ⟨?_, hinv⟩
        simp only [CharBG, charDeps, okdBG, hdl]
        exact ⟨⟨hdns, hdapp, hdname⟩, ⟨hens, heapp, hename⟩, hde⟩
  · simp [CharBG, charDeps, hdl] at hc

theorem rollback_preserves (envNs ns a : String) (hns : ns ≠ "")
    (c : Cluster) (hc : CharBG ns a c) (hinv : InvBG ns a c) :
    CharBG ns a (applyBG envNs ns a c .rollback) ∧
    InvBG ns a (applyBG envNs ns a c .rollback) := by
  have hres : pyStrOr ns envNs = ns := pyStrOr_of_ne ns envNs hns
  rcases hdl : c.deps with _ | ⟨d, _ | ⟨e, _ | ⟨f, l⟩⟩⟩
  · have hstate : applyBG envNs ns a c .rollback = c := by
      simp [applyBG, bg_rollback, hres, listDeploymentsByApp, hdl,
        lastWith]
    rw [hstate]; exact ⟨hc, hinv⟩
  · simp only [CharBG, charDeps, okdBG, hdl] at hc
    obtain ⟨hdns, hdapp, hdname⟩ := hc
    by_cases hdprev : d.role = "preview"
    · have hdeps : (applyBG envNs ns a c .rollback).deps =
          [{ d with role := "active" }] := by
        simp [applyBG, bg_rollback, hres, listDeploymentsByApp, hdl,
          lastWith, hdns, hdapp, hdprev, patchDeployRole]
      constructor
      · simp only [CharBG, hdeps, charDeps, okdBG]
        exact ⟨hdns, hdapp, hdname⟩
      · simp [InvBG, hdeps, InvListBG, roleList, hdns, hdapp]
    · have hstate : applyBG envNs ns a c .rollback = c := by
        simp [applyBG, bg_rollback, hres, listDeploymentsByApp, hdl,
          lastWith, hdns, hdapp, hdprev]
      rw [hstate]
      refine ⟨?_, hinv⟩
      simp only [CharBG, charDeps, okdBG, hdl]
      exact ⟨hdns, hdapp, hdname⟩
  · simp only [CharBG, charDeps, okdBG, hdl] at hc
    obtain ⟨⟨hdns, hdapp, hdname⟩, ⟨hens, heapp, hename⟩, hde⟩ := hc
    have hed : e.name ≠ d.name := Ne.symm hde
    by_cases hdprev : d.role = "preview"
    · by_cases heprev : e.role = "preview"
      · exfalso
        simp [InvBG, InvListBG, roleList, hdl, hdns, hdapp, hens, heapp,
          hdprev, heprev] at hinv
      · by_cases heact : e.role = "active"
        · have hdeps : (applyBG envNs ns a c .rollback).deps =
              [{ d with role := "active" }, { e with role := "preview" }] := by
            simp [applyBG, bg_rollback, hres, listDeploymentsByApp, hdl,
              lastWith, hdns, hdapp, hens, heapp, hdprev, heprev, heact,
              patchDeployRole, hde, hed]
          constructor
          · simp only [CharBG, hdeps, charDeps, okdBG]
            exact ⟨⟨hdns, hdapp, hdname⟩, ⟨hens, heapp, hename⟩, hde⟩
          · simp [InvBG, hdeps, InvListBG, roleList, hdns, hdapp, hens,
              heapp]
        · have hdeps : (applyBG envNs ns a c .rollback).deps =
              [{ d with role := "active" }, e] := by
            simp [applyBG, bg_rollback, hres, listDeploymentsByApp, hdl,
              lastWith, hdns, hdapp, hens, heapp, hdprev, heprev, heact,
              patchDeployRole, hde, hed]
          constructor
          · simp only [CharBG, hdeps, charDeps, okdBG]
            exact ⟨⟨hdns, hdapp, hdname⟩, ⟨hens, heapp, hename⟩, hde⟩
          · simp [InvBG, hdeps, InvListBG, roleList, hdns, hdapp, hens,
              heapp, heact, heprev]
    · by_cases heprev : e.role = "preview"
      · by_cases hdact : d.role = "active"
        · have hdeps : (applyBG envNs ns a c .rollback).deps =
              [{ d with role := "preview" }, { e with role := "active" }] := by
            simp [applyBG, bg_rollback, hres, listDeploymentsByApp, hdl,
              lastWith, hdns, hdapp, hens, heapp, hdprev, heprev, hdact,
              patchDeployRole, hde, hed]
          constructor
          · simp only [CharBG, hdeps, charDeps, okdBG]
            exact ⟨⟨hdns, hdapp, hdname⟩, ⟨hens, heapp, hename⟩, hde⟩
          · simp [InvBG, hdeps, InvListBG, roleList, hdns, hdapp, hens,
              heapp]
        · have hdeps : (applyBG envNs ns a c .rollback).deps =
              [d, { e with role := "active" }] := by
            simp [applyBG, bg_rollback, hres, listDeploymentsByApp, hdl,
              lastWith, hdns, hdapp, hens, heapp, hdprev, heprev, hdact,
              patchDeployRole, hde, hed]
          constructor
          · simp only [CharBG, hdeps, charDeps, okdBG]
            exact ⟨⟨hdns, hdapp, hdname⟩, ⟨hens, heapp, hename⟩, hde⟩
          · simp [InvBG, hdeps, InvListBG, roleList, hdns, hdapp, hens,
              heapp, hdact, hdprev]
      · have hstate : applyBG envNs ns a c .rollback = c := by
          simp [applyBG, bg_rollback, hres, listDeploymentsByApp, hdl,
            lastWith, hdns, hdapp, hens, heapp, hdprev, heprev]
        rw [hstate]
        refine ⟨?_, hinv⟩
        simp only [CharBG, charDeps, okdBG, hdl]
        exact ⟨⟨hdns, hdapp, hdname⟩, ⟨hens, heapp, hename⟩, hde⟩
  · simp [CharBG, charDeps, hdl] at hc

theorem stepBG_preserves (envNs ns a : String) (hns : ns ≠ "")
    (c : Cluster) (op : BGOp) (hc : CharBG ns a c) (hinv : InvBG ns a c)
    (hg : goodBG ns a c op = true) :
    CharBG ns a (applyBG envNs ns a c op) ∧
    InvBG ns a (applyBG envNs ns a c op) := by
  cases op with
  | deploy img tag r =>
    exact deploy_preserves envNs ns a img tag r hns c hc hinv hg
  | prepare img tag r =>
    exact prepare_preserves envNs ns a img tag r hns c hc hinv hg
  | promote => exact promote_preserves envNs ns a hns c hc hinv
  | rollback => exact rollback_preserves envNs ns a hns c hc hinv

theorem runBG_preserves (envNs ns a : String) (hns : ns ≠ "") :
    ∀ (ops : List BGOp) (c : Cluster), CharBG ns a c → InvBG ns a c →
      goodTrace envNs ns a c ops = true →
      CharBG ns a (runBG envNs ns a c ops) ∧
      InvBG ns a (runBG envNs ns a c ops) := by
  intro ops
  induction ops with
  | nil => intro c hc hinv _; exact ⟨hc, hinv⟩
  | cons op rest ih =>
    intro c hc hinv hg
    simp only [goodTrace, Bool.and_eq_true] at hg
    have hstep := stepBG_preserves envNs ns a hns c op hc hinv hg.1
    exact ih _ hstep.1 hstep.2 hg.2

theorem goodTrace_append_left (envNs ns a : String) :
    ∀ (pre post : List BGOp) (c : Cluster),
      goodTrace envNs ns a c (pre ++ post) = true →
      goodTrace envNs ns a c pre = true := by
  intro pre
  induction pre with
  | nil => intro post c _; rfl
  | cons op rest ih =>
    intro post c hg
    simp only [List.cons_append, goodTrace, Bool.and_eq_true] at hg ⊢
    exact ⟨hg.1, ih post _ hg.2⟩

theorem writeService_mem (c : Cluster) (ns nm : String) (body : KService)
    (u : KService) (hu : u ∈ (writeService c ns nm body).svcs) :
    u ∈ c.svcs ∨ u = body := by
  simp only [writeService, List.mem_map] at hu
  obtain ⟨x, hx, hxu⟩ := hu
  by_cases hcond : (x.ns == ns && x.name == nm) = true
  · rw [if_pos hcond] at hxu
    right
    exact hxu.symm
  · rw [if_neg hcond] at hxu
    left
    exact hxu ▸ hx

-- C2 -------------------------------------------------------------------

/-- C2 counterexample: from the empty state, deploy then prepare then
promote leaves role=active on the preview-named deployment; a second
deploy then relabels the base-named deployment role=active again, so two
deployments hold role=active while the Service selector still targets
role=active, and both receive live traffic. -/
theorem bluegreen_invariant_counterexample :
    (roleDeps (runBG "default" "t1" "web" Cluster.empty
      [.deploy "img" "v1" 1, .prepare "img" "v2" 1, .promote,
       .deploy "img" "v3" 1]) "t1" "web" "active").length = 2 ∧
    ¬ InvBG "t1" "web" (runBG "default" "t1" "web" Cluster.empty
      [.deploy "img" "v1" 1, .prepare "img" "v2" 1, .promote,
       .deploy "img" "v3" 1]) := by
  decide

/-- C2 amended: starting from the empty state, after every prefix of a
deploy/prepare/promote/rollback sequence on one (namespace, application)
pair, at most one deployment holds role=active and at most one holds
role=preview, provided every deploy runs only while no deployment other
than the base-named one holds role=active and every prepare runs only
while no deployment other than the preview-named one holds role=preview
(promote and rollback need no restriction); and every Service that
upsert_service successfully writes carries the selector app=<label>,
role=active, every other service being left untouched.  Without the
proviso the invariant fails: see the counterexample, exactly the
deploy-after-promote scenario the claim singles out. -/
theorem bluegreen_invariant_amended :
    (∀ (envNs ns a : String) (ops pre post : List BGOp),
      ns ≠ "" → ops = pre ++ post →
      goodTrace envNs ns a Cluster.empty ops = true →
      InvBG ns a (runBG envNs ns a Cluster.empty pre)) ∧
    (∀ (spec : AppSpec) (ctx : CurrentContext) (c c' : Cluster)
        (s : KService),
      upsert_service spec ctx c = (c', .ok s) →
      s.selector = [("app", spec.effective_app_label), ("role", "active")] ∧
      ∀ u ∈ c'.svcs, u ∈ c.svcs ∨
        u.selector =
          [("app", spec.effective_app_label), ("role", "active")]) := by
  constructor
  · intro envNs ns a ops pre post hns hsplit hg
    subst hsplit
    have hpre := goodTrace_append_left envNs ns a pre post Cluster.empty hg
    exact (runBG_preserves envNs ns a hns pre Cluster.empty
      (by simp [CharBG, charDeps, Cluster.empty])
      (by simp [InvBG, InvListBG, roleList, Cluster.empty]) hpre).2
  · intro spec ctx c c' s h
    by_cases h1 : ctx.role = "platform_admin" ∧
        pyOptOr ctx.k8s_namespace (pyStrOr spec.ns "default") ≠ "default"
    · simp [upsert_service, h1] at h
    · by_cases h2 : ctx.role ≠ "platform_admin" ∧
          pyOptOr ctx.k8s_namespace (pyStrOr spec.ns "default") = "default"
      · simp [upsert_service, h1, h2] at h
      · cases hfound : readService c
            (pyOptOr ctx.k8s_namespace (pyStrOr spec.ns "default"))
            spec.effective_service_name with
        | some s0 =>
          simp only [upsert_service, if_neg h1, if_neg h2, hfound,
            create_ingress_for_app, create_ingress_with_clients, dictGet,
            get_api_clients, List.find?, Prod.mk.injEq,
            Except.ok.injEq] at h
          obtain ⟨hc', hs⟩ := h
          subst hc'
          subst hs
          constructor
          · rfl
          · intro u hu
            rcases writeService_mem c _ _ _ u hu with hin | hbody
            · exact Or.inl hin
            · right
              rw [hbody]
              rfl
        | none =>
          simp only [upsert_service, if_neg h1, if_neg h2, hfound,
            create_ingress_for_app, create_ingress_with_clients, dictGet,
            get_api_clients, List.find?, Prod.mk.injEq,
            Except.ok.injEq] at h
          obtain ⟨hc', hs⟩ := h
          subst hc'
          subst hs
          constructor
          · rfl
          · intro u hu
            rcases List.mem_append.mp hu with hin | hbody
            · exact Or.inl hin
            · right
              rw [List.mem_singleton.mp hbody]
              rfl

/-- Witness for the amended C2: the guarded trace deploy, prepare,
promote, rollback keeps the invariant, and a concrete service upsert
writes the active selector. -/
theorem bluegreen_invariant_amended_witness :
    InvBG "t1" "web" (runBG "default" "t1" "web" Cluster.empty
      [.deploy "img" "v1" 1, .prepare "img" "v2" 1, .promote,
       .rollback]) ∧
    (servicePatchBody
      ⟨"t1", "web", "NodePort", 80, some 30080, 8080, "web", "UDP",
       [("app", "web")], []⟩ "web" 3000).selector =
      [("app", "web"), ("role", "active")] :=
  ⟨bluegreen_invariant_amended.1 "default" "t1" "web"
    [.deploy "img" "v1" 1, .prepare "img" "v2" 1, .promote, .rollback]
    [.deploy "img" "v1" 1, .prepare "img" "v2" 1, .promote, .rollback]
    [] (by decide) (by decide) (by decide),
   (bluegreen_invariant_amended.2
    { name := "web", ns := "t1", image := "img", tag := "v1", port := 3000 }
    ⟨"user", some "t1"⟩
    { svcs := [⟨"t1", "web", "NodePort", 80, some 30080, 8080, "web",
                "UDP", [("app", "web")], []⟩] }
    (writeService
      { svcs := [⟨"t1", "web", "NodePort", 80, some 30080, 8080, "web",
                  "UDP", [("app", "web")], []⟩] }
      "t1" "web"
      (servicePatchBody
        ⟨"t1", "web", "NodePort", 80, some 30080, 8080, "web", "UDP",
         [("app", "web")], []⟩ "web" 3000))
    (servicePatchBody
      ⟨"t1", "web", "NodePort", 80, some 30080, 8080, "web", "UDP",
       [("app", "web")], []⟩ "web" 3000)
    (by decide)).1⟩

end Spec2Proof
